import Mathlib

/-!
Verification of the memory-management kernel of the airllm-style runtime:
the bump arena allocator (`crates/runtime/src/memory/arena.rs`) and the
eviction-policy scheduler (`crates/runtime/src/scheduler/manager.rs`).

Machine integers (`usize`) are modelled as `Nat`, with fixed-width
wrap-around made explicit (`% 2 ^ 64`, release-mode wrapping semantics on
a 64-bit target) wherever the source performs `usize` arithmetic that can
overflow: the capacity computation `capacity_mb * 1024 * 1024` in
`ModelArena::new`, and the guard sum / offset update `offset + size` in
`ModelArena::alloc`. A guard sum that wraps can bypass the out-of-memory
check; the execution then zero-fills `size ≥ 2^64 - offset` bytes out of
bounds and returns no state in the real program, so theorems about what a
call returns carry an explicit no-overflow bound (or a `usize`
representability bound on a quantified capacity) where the property needs
one. Raw pointers handed out by the arena are modelled as byte offsets into the
owned region (the returned pointer is `memory_start + offset`, so the
offset determines it). The zero-fill of the allocated sub-range is a side
effect on memory contents, which the model does not track. Mutation of
`&mut self` is modelled by returning the updated state alongside the
result, so "no mutation on failure" is visible as the returned state being
the input state.
-/

/-- Number of values of the 64-bit `usize` type of the target platform. -/
def USIZE : Nat := 2 ^ 64

/-- `isize::MAX` on a 64-bit target. -/
def isizeMax : Nat := 2 ^ 63 - 1

/-- State of `ModelArena` (arena.rs): the fixed capacity in bytes and the
bump offset. The `memory_start` pointer is not modelled; sub-ranges are
identified by their byte offsets into the region. -/
structure ModelArena where
  capacity : Nat
  offset : Nat
deriving DecidableEq

/-- `ArenaError` (arena.rs). -/
inductive ArenaError where
  | OutOfMemory (requested : Nat) (available : Nat)
  | AllocationFailed
deriving DecidableEq

/-- `Layout::from_size_align(size, 32)` succeeds iff `size`, rounded up to
the nearest multiple of the alignment 32, does not overflow `isize`,
i.e. iff `size ≤ isize::MAX - 31`. -/
def layoutFromSizeAlign32Ok (size : Nat) : Bool :=
  size ≤ isizeMax - 31

/-- `ModelArena::new(capacity_mb)` (arena.rs lines 20–36):
`capacity_bytes = capacity_mb * 1024 * 1024` in wrapping `usize`
arithmetic, then `Layout::from_size_align(capacity_bytes, 32)` which fails
with `AllocationFailed` when the layout size check fails. The OS-level
`alloc` call returning null (environment refusal) is nondeterministic and
is modelled as succeeding. -/
def ModelArena.new (capacity_mb : Nat) : Except ArenaError ModelArena :=
  let capacity_bytes := capacity_mb * 1024 * 1024 % USIZE
  if layoutFromSizeAlign32Ok capacity_bytes then
    .ok { capacity := capacity_bytes, offset := 0 }
  else
    .error .AllocationFailed

/-- `ModelArena::alloc(size)` (arena.rs lines 40–62). The guard
`self.offset + size > self.capacity` is a `usize` addition, which wraps
modulo `2^64` in release mode; the same wrapped sum becomes the new
offset on `self.offset += size`. When the guard holds the call fails with
`OutOfMemory { requested := size, available := capacity - offset }`,
leaving the state untouched (the `usize` subtraction agrees with `Nat`
subtraction on every state with `offset ≤ capacity`, an invariant this
definition preserves); otherwise it returns the start offset of the
sub-range `[offset, offset + size)` and advances the bump offset. -/
def ModelArena.alloc (a : ModelArena) (size : Nat) :
    Except ArenaError Nat × ModelArena :=
  if (a.offset + size) % USIZE > a.capacity then
    (.error (.OutOfMemory size (a.capacity - a.offset)), a)
  else
    (.ok a.offset, { a with offset := (a.offset + size) % USIZE })

/-- `ModelArena::reset` (arena.rs lines 66–68): snap the offset to 0. -/
def ModelArena.reset (a : ModelArena) : ModelArena :=
  { a with offset := 0 }

/-- `ModelArena::used_bytes` (arena.rs lines 71–73). -/
def ModelArena.used_bytes (a : ModelArena) : Nat :=
  a.offset

/-- State of `Scheduler` (manager.rs): its arena and the ordered record of
resident layer identifiers (`loaded_layers`, a `Vec<usize>` pushed at the
back, so the list head is the first-loaded layer). -/
structure Scheduler where
  arena : ModelArena
  loaded_layers : List Nat
deriving DecidableEq

/-- `SchedulerDecision` (manager.rs). The pointer of `LoadSuccess` is
modelled as the start offset of the allocated sub-range. -/
inductive SchedulerDecision where
  | LoadSuccess (ptr : Nat)
  | MustUnload (layer_id : Nat)
  | OOM
deriving DecidableEq

/-- `Scheduler::boot(memory_limit_mb)` (manager.rs lines 21–26). -/
def Scheduler.boot (memory_limit_mb : Nat) : Except ArenaError Scheduler :=
  match ModelArena.new memory_limit_mb with
  | .ok arena => .ok { arena := arena, loaded_layers := [] }
  | .error e => .error e

/-- `Scheduler::request_load(layer_id, size_bytes)` (manager.rs lines
29–49): try `arena.alloc`; on success push `layer_id` and return
`LoadSuccess`; on failure suggest evicting `loaded_layers.first()` if the
record is non-empty (`MustUnload`), else report `OOM`. -/
def Scheduler.request_load (s : Scheduler) (layer_id : Nat)
    (size_bytes : Nat) : SchedulerDecision × Scheduler :=
  match s.arena.alloc size_bytes with
  | (.ok ptr, arena2) =>
      (.LoadSuccess ptr,
        { arena := arena2, loaded_layers := s.loaded_layers ++ [layer_id] })
  | (.error _, arena2) =>
      match s.loaded_layers with
      | old_layer :: _ =>
          (.MustUnload old_layer,
            { arena := arena2, loaded_layers := s.loaded_layers })
      | [] => (.OOM, { arena := arena2, loaded_layers := s.loaded_layers })

/-- `Scheduler::unload_all` (manager.rs lines 52–56): reset the arena and
clear the resident record. -/
def Scheduler.unload_all (s : Scheduler) : Scheduler :=
  { arena := s.arena.reset, loaded_layers := [] }

/-- `Scheduler::memory_usage` (manager.rs). -/
def Scheduler.memory_usage (s : Scheduler) : Nat :=
  s.arena.used_bytes

/-- Run a sequence of `alloc` calls on an arena, collecting the returned
sub-ranges as `(start_offset, size)` pairs; `none` if any call fails. -/
def allocSeq : ModelArena → List Nat → Option (List (Nat × Nat) × ModelArena)
  | a, [] => some ([], a)
  | a, size :: rest =>
    match a.alloc size with
    | (.ok off, a2) =>
        (allocSeq a2 rest).map fun p => ((off, size) :: p.1, p.2)
    | (.error _, _) => none

/-- Membership of a byte address in the sub-range `[r.1, r.1 + r.2)`. -/
def insideBlock (r : Nat × Nat) (x : Nat) : Prop :=
  r.1 ≤ x ∧ x < r.1 + r.2

/-- Two sub-ranges are disjoint: no byte address lies in both. -/
def disjointBlocks (r1 r2 : Nat × Nat) : Prop :=
  ∀ x : Nat, ¬ (insideBlock r1 x ∧ insideBlock r2 x)

/-- The scheduler-level synchronization invariant of the spec: the
resident record is non-empty only if the arena watermark is positive. -/
def SchedInv (s : Scheduler) : Prop :=
  s.loaded_layers ≠ [] → 0 < s.memory_usage

/-- Scheduler states reachable from `boot` by `request_load` and
`unload_all`. -/
inductive Reached : Scheduler → Prop where
  | boot (m : Nat) (s : Scheduler) : Scheduler.boot m = .ok s → Reached s
  | load (s : Scheduler) (lid sz : Nat) :
      Reached s → Reached (s.request_load lid sz).2
  | flush (s : Scheduler) : Reached s → Reached s.unload_all

/-- C2 counterexample: with the wrapping `usize` guard, the claim fails
for a size that overflows `offset + size`. In the state with capacity
1048576 and offset 4 (reachable from `boot(1)` by one 4-byte load), the
request `size = 2^64 - 1` satisfies `size > capacity - offset`, yet the
guard computes `(4 + 2^64 - 1) mod 2^64 = 3 ≤ 1048576` and the call does
not return `OutOfMemory`: it takes the success branch (in the real
program this execution proceeds into an out-of-bounds zero-fill; under
debug semantics the addition panics — under neither semantics is
`OutOfMemory` returned). -/
theorem alloc_oom_counterexample :
    1048576 - 4 < 2 ^ 64 - 1 ∧
    ModelArena.alloc ⟨1048576, 4⟩ (2 ^ 64 - 1) = (.ok 4, ⟨1048576, 3⟩) ∧
    ModelArena.alloc ⟨1048576, 4⟩ (2 ^ 64 - 1) ≠
      (.error (.OutOfMemory (2 ^ 64 - 1) (1048576 - 4)), ⟨1048576, 4⟩) :=
  ⟨by decide, rfl, fun hcon => nomatch hcon⟩

/-- C2 (amended): for every arena state and every `size` exceeding the
remaining room `capacity - offset`, provided the `usize` addition
`offset + size` does not overflow (`offset + size < 2^64`), `alloc(size)`
returns `OutOfMemory { requested := size, available := capacity - offset }`
and the arena state (in particular its offset) is returned unchanged:
no partial mutation on failure. When the addition overflows, the wrapped
sum can bypass the guard and the call does not return `OutOfMemory`. -/
theorem alloc_oom_no_mutation (a : ModelArena) (size : Nat)
    (h : a.capacity - a.offset < size) (hnw : a.offset + size < USIZE) :
    a.alloc size = (.error (.OutOfMemory size (a.capacity - a.offset)), a) := by
  unfold ModelArena.alloc
  rw [Nat.mod_eq_of_lt hnw]
  have hgt : a.offset + size > a.capacity := by omega
  simp [hgt]

theorem alloc_oom_no_mutation_witness :
    ModelArena.alloc ⟨10, 4⟩ 7 =
      (.error (.OutOfMemory 7 6), ⟨10, 4⟩) :=
  alloc_oom_no_mutation ⟨10, 4⟩ 7 (by decide) (by decide)

/-- C7: `unload_all` unconditionally resets the arena and clears the
resident record: afterwards `memory_usage` is 0 and the record is empty,
and a subsequent full-capacity `alloc(capacity)` succeeds — as does the
equivalent `request_load` of `capacity` bytes. The capacity is a `usize`
value, so it is bounded by `2^64`. -/
theorem unload_all_flushes (s : Scheduler) (lid : Nat)
    (hcap : s.arena.capacity < USIZE) :
    (s.unload_all).memory_usage = 0 ∧
    (s.unload_all).loaded_layers = [] ∧
    (s.unload_all).arena.alloc s.arena.capacity =
      (.ok 0, ⟨s.arena.capacity, s.arena.capacity⟩) ∧
    (s.unload_all).request_load lid s.arena.capacity =
      (.LoadSuccess 0, ⟨⟨s.arena.capacity, s.arena.capacity⟩, [lid]⟩) := by
  refine ⟨rfl, rfl, ?_, ?_⟩ <;>
    simp [Scheduler.unload_all, Scheduler.request_load, ModelArena.alloc,
      ModelArena.reset, Scheduler.memory_usage, ModelArena.used_bytes,
      Nat.mod_eq_of_lt hcap]

theorem unload_all_flushes_witness :
    (Scheduler.unload_all ⟨⟨100, 37⟩, [4, 5]⟩).memory_usage = 0 ∧
    (Scheduler.unload_all ⟨⟨100, 37⟩, [4, 5]⟩).loaded_layers = [] ∧
    (Scheduler.unload_all ⟨⟨100, 37⟩, [4, 5]⟩).arena.alloc 100 =
      (.ok 0, ⟨100, 100⟩) ∧
    (Scheduler.unload_all ⟨⟨100, 37⟩, [4, 5]⟩).request_load 9 100 =
      (.LoadSuccess 0, ⟨⟨100, 100⟩, [9]⟩) :=
  unload_all_flushes ⟨⟨100, 37⟩, [4, 5]⟩ 9 (by decide)

/-- C8: Scenario A end to end. `boot(1)` reserves 1 MB; loading layer 1 at
0.6 MB (629145 bytes, the truncation of 0.6 · 2^20) succeeds; loading
layer 2 at 0.5 MB (524288 bytes) then yields `MustUnload { layer_id := 1 }`
with the state unchanged; after `unload_all`, `memory_usage` is 0; and
repeating the 0.5 MB request for layer 2 succeeds. -/
theorem scenario_A :
    Scheduler.boot 1 = .ok ⟨⟨1048576, 0⟩, []⟩ ∧
    Scheduler.request_load ⟨⟨1048576, 0⟩, []⟩ 1 629145 =
      (.LoadSuccess 0, ⟨⟨1048576, 629145⟩, [1]⟩) ∧
    Scheduler.request_load ⟨⟨1048576, 629145⟩, [1]⟩ 2 524288 =
      (.MustUnload 1, ⟨⟨1048576, 629145⟩, [1]⟩) ∧
    Scheduler.unload_all ⟨⟨1048576, 629145⟩, [1]⟩ = ⟨⟨1048576, 0⟩, []⟩ ∧
    Scheduler.memory_usage ⟨⟨1048576, 0⟩, []⟩ = 0 ∧
    (Scheduler.request_load ⟨⟨1048576, 0⟩, []⟩ 2 524288).1 =
      .LoadSuccess 0 := by
  exact ⟨rfl, rfl, rfl, rfl, rfl, rfl⟩

/-- C9: `alloc(0)` succeeds on every arena state satisfying the data-model
invariant `offset ≤ capacity` (with the capacity a `usize` value, bounded
by `2^64`), including a completely full arena, and leaves the offset
unchanged; consequently `request_load(layer_id, 0)` returns `LoadSuccess`
and appends `layer_id` to the resident record even with zero bytes of
remaining room. -/
theorem alloc_zero_succeeds (a : ModelArena) (ha : a.offset ≤ a.capacity)
    (hac : a.capacity < USIZE) (s : Scheduler)
    (hs : s.arena.offset ≤ s.arena.capacity)
    (hsc : s.arena.capacity < USIZE) (lid : Nat) :
    a.alloc 0 = (.ok a.offset, a) ∧
    (s.request_load lid 0).1 = .LoadSuccess s.arena.offset ∧
    (s.request_load lid 0).2.loaded_layers = s.loaded_layers ++ [lid] ∧
    (s.request_load lid 0).2.arena = s.arena := by
  have key : ∀ b : ModelArena, b.offset ≤ b.capacity → b.capacity < USIZE →
      b.alloc 0 = (.ok b.offset, b) := by
    intro b hb hbc
    unfold ModelArena.alloc
    have hlt : b.offset + 0 < USIZE := by omega
    rw [Nat.mod_eq_of_lt hlt]
    have hnot : ¬ (b.offset + 0 > b.capacity) := by omega
    simp [hnot]
    omega
  refine ⟨key a ha hac, ?_, ?_, ?_⟩ <;>
    simp [Scheduler.request_load, key s.arena hs hsc]

theorem alloc_zero_succeeds_witness :
    ModelArena.alloc ⟨5, 5⟩ 0 = (.ok 5, ⟨5, 5⟩) ∧
    (Scheduler.request_load ⟨⟨5, 5⟩, [3]⟩ 7 0).1 = .LoadSuccess 5 ∧
    (Scheduler.request_load ⟨⟨5, 5⟩, [3]⟩ 7 0).2.loaded_layers = [3, 7] ∧
    (Scheduler.request_load ⟨⟨5, 5⟩, [3]⟩ 7 0).2.arena = ⟨5, 5⟩ :=
  alloc_zero_succeeds ⟨5, 5⟩ (by decide) (by decide) ⟨⟨5, 5⟩, [3]⟩
    (by decide) (by decide) 7

/-- Helper for C1: running `allocSeq` from offset `off` of a `usize`
capacity `cap` with total requested size fitting in the capacity
succeeds, ends at `off + sizes.sum`, keeps every returned sub-range
inside `[off, off + sizes.sum)`, and the sub-ranges are pairwise
disjoint. The bound `cap < 2^64` keeps every guard sum below the `usize`
wrap. -/
theorem allocSeq_ok (sizes : List Nat) : ∀ cap off : Nat,
    cap < USIZE →
    off + sizes.sum ≤ cap →
    ∃ ranges : List (Nat × Nat),
      allocSeq ⟨cap, off⟩ sizes = some (ranges, ⟨cap, off + sizes.sum⟩) ∧
      (∀ r ∈ ranges, off ≤ r.1 ∧ r.1 + r.2 ≤ off + sizes.sum) ∧
      ranges.Pairwise disjointBlocks ∧
      ranges.map Prod.snd = sizes := by
  induction sizes with
  | nil =>
    intro cap off hcap h
    exact ⟨[], by simp [allocSeq], by simp, by simp, rfl⟩
  | cons sz rest ih =>
    intro cap off hcap h
    have hsum : off + sz + rest.sum ≤ cap := by
      simp only [List.sum_cons] at h; omega
    have hlt : off + sz < USIZE := by omega
    have hfit : ¬ (off + sz > cap) := by omega
    have halloc : ModelArena.alloc ⟨cap, off⟩ sz = (.ok off, ⟨cap, off + sz⟩) := by
      unfold ModelArena.alloc
      simp [Nat.mod_eq_of_lt hlt, hfit]
    obtain ⟨rs, heq, hbnd, hpw, hmap⟩ := ih cap (off + sz) hcap hsum
    refine ⟨(off, sz) :: rs, ?_, ?_, ?_, ?_⟩
    · simp [allocSeq, halloc, heq, Nat.add_assoc]
    · intro r hr
      rcases List.mem_cons.mp hr with h1 | h2
      · subst h1; simp
      · have hb := hbnd r h2
        simp at hb ⊢
        omega
    · refine List.Pairwise.cons ?_ hpw
      intro r hr x hx
      obtain ⟨hA, hB⟩ := hx
      have hb := (hbnd r hr).1
      simp [insideBlock] at hA hB
      omega
    · simp [hmap]

/-- C1: on a fresh arena of any `usize` capacity `C` (so `C < 2^64`), any
sequence of `alloc` calls whose cumulative size is at most `C` fully
succeeds, the returned sub-ranges `[offset_before, offset_before + size)`
are pairwise disjoint, and `used_bytes` afterwards equals the sum of the
requested sizes. -/
theorem arena_alloc_sequence (C : Nat) (hC : C < USIZE) (sizes : List Nat)
    (h : sizes.sum ≤ C) :
    ∃ ranges : List (Nat × Nat), ∃ aEnd : ModelArena,
      allocSeq ⟨C, 0⟩ sizes = some (ranges, aEnd) ∧
      ranges.map Prod.snd = sizes ∧
      ranges.Pairwise disjointBlocks ∧
      aEnd.used_bytes = sizes.sum := by
  obtain ⟨rs, heq, _, hpw, hmap⟩ := allocSeq_ok sizes C 0 hC (by omega)
  exact ⟨rs, _, heq, hmap, hpw, by simp [ModelArena.used_bytes]⟩

theorem arena_alloc_sequence_witness :
    [3, 4, 2].sum ≤ 10 ∧
    ∃ ranges : List (Nat × Nat), ∃ aEnd : ModelArena,
      allocSeq ⟨10, 0⟩ [3, 4, 2] = some (ranges, aEnd) ∧
      ranges.map Prod.snd = [3, 4, 2] ∧
      ranges.Pairwise disjointBlocks ∧
      aEnd.used_bytes = [3, 4, 2].sum :=
  ⟨by decide, arena_alloc_sequence 10 (by decide) [3, 4, 2] (by decide)⟩

/-- C3: `request_load` returns exactly one of the three decisions and
never surfaces the arena's `OutOfMemory` error (the decision type has no
error case): on allocation success it returns `LoadSuccess` and appends
`layer_id` to the resident record exactly once (its count grows by one);
on allocation failure with a non-empty record it returns `MustUnload`;
on allocation failure with an empty record it returns `OOM`. -/
theorem request_load_decision_cases (s : Scheduler) (lid sz : Nat) :
    (∀ p a2, s.arena.alloc sz = (.ok p, a2) →
      s.request_load lid sz =
        (.LoadSuccess p, ⟨a2, s.loaded_layers ++ [lid]⟩) ∧
      ((s.request_load lid sz).2.loaded_layers).count lid
        = s.loaded_layers.count lid + 1) ∧
    (∀ e a2, s.arena.alloc sz = (.error e, a2) → s.loaded_layers ≠ [] →
      ∃ l, (s.request_load lid sz).1 = .MustUnload l) ∧
    (∀ e a2, s.arena.alloc sz = (.error e, a2) → s.loaded_layers = [] →
      (s.request_load lid sz).1 = .OOM) := by
  refine ⟨?_, ?_, ?_⟩
  · intro p a2 hok
    refine ⟨by simp [Scheduler.request_load, hok], ?_⟩
    simp [Scheduler.request_load, hok]
  · intro e a2 herr hne
    cases hll : s.loaded_layers with
    | nil => exact absurd hll hne
    | cons old t =>
      exact ⟨old, by simp [Scheduler.request_load, herr, hll]⟩
  · intro e a2 herr hll
    simp [Scheduler.request_load, herr, hll]

theorem request_load_decision_cases_witness :
    Scheduler.request_load ⟨⟨10, 0⟩, []⟩ 1 4 =
      (.LoadSuccess 0, ⟨⟨10, 4⟩, [1]⟩) ∧
    (∃ l, (Scheduler.request_load ⟨⟨10, 8⟩, [7]⟩ 1 5).1 = .MustUnload l) ∧
    (Scheduler.request_load ⟨⟨10, 8⟩, []⟩ 1 5).1 = .OOM :=
  ⟨((request_load_decision_cases ⟨⟨10, 0⟩, []⟩ 1 4).1 0 ⟨10, 4⟩ rfl).1,
   (request_load_decision_cases ⟨⟨10, 8⟩, [7]⟩ 1 5).2.1
     (.OutOfMemory 5 2) ⟨10, 8⟩ rfl (by decide),
   (request_load_decision_cases ⟨⟨10, 8⟩, []⟩ 1 5).2.2
     (.OutOfMemory 5 2) ⟨10, 8⟩ rfl rfl⟩

/-- C4: when the arena allocation fails and the resident record is
non-empty, `request_load` returns `MustUnload` carrying the record's FIFO
head (the first-inserted still-resident identifier) and leaves the whole
scheduler state — arena offset and resident record — unmodified. -/
theorem request_load_must_unload_head (s : Scheduler) (lid sz : Nat)
    (e : ArenaError) (a2 : ModelArena)
    (herr : s.arena.alloc sz = (.error e, a2))
    (old : Nat) (t : List Nat) (hll : s.loaded_layers = old :: t) :
    s.request_load lid sz = (.MustUnload old, s) := by
  have hback : a2 = s.arena := by
    unfold ModelArena.alloc at herr
    by_cases hc : (s.arena.offset + sz) % USIZE > s.arena.capacity
    · simp [hc] at herr
      exact herr.2.symm
    · simp [hc] at herr
  simp [Scheduler.request_load, herr, hll, hback]
  rw [← hll]

theorem request_load_must_unload_head_witness :
    Scheduler.request_load ⟨⟨10, 8⟩, [5, 9]⟩ 1 6 =
      (.MustUnload 5, ⟨⟨10, 8⟩, [5, 9]⟩) :=
  request_load_must_unload_head ⟨⟨10, 8⟩, [5, 9]⟩ 1 6
    (.OutOfMemory 6 2) ⟨10, 8⟩ rfl 5 [9] rfl

/-- C5 counterexample: the synchronization invariant as claimed is not
preserved by every `request_load`. From the state produced by `boot(1)`,
`request_load(1, 0)` succeeds (a zero-size allocation always fits),
appending layer 1 to the record while leaving the watermark at 0: the
record is then non-empty with `used_bytes = 0`. -/
theorem sched_inv_counterexample :
    Scheduler.boot 1 = .ok ⟨⟨1048576, 0⟩, []⟩ ∧
    (Scheduler.request_load ⟨⟨1048576, 0⟩, []⟩ 1 0).2.loaded_layers = [1] ∧
    (Scheduler.request_load ⟨⟨1048576, 0⟩, []⟩ 1 0).2.memory_usage = 0 ∧
    ¬ SchedInv (Scheduler.request_load ⟨⟨1048576, 0⟩, []⟩ 1 0).2 := by
  refine ⟨rfl, rfl, rfl, ?_⟩
  intro hinv
  exact absurd (hinv (by decide)) (by decide)

/-- C5 (amended): the invariant "the resident record is non-empty only if
the arena watermark is positive" holds in the state produced by `boot`,
is preserved by `unload_all` unconditionally, and is preserved by
`request_load` for every positive request size whose guard addition
`offset + size_bytes` does not overflow `usize`; a zero-size
`request_load` can break it (and an overflowing request is a guard bypass
whose oversized out-of-bounds zero-fill returns no state in the real
program). -/
theorem sched_inv_preserved :
    (∀ m s, Scheduler.boot m = .ok s → SchedInv s) ∧
    (∀ s lid sz, SchedInv s → 0 < sz → s.arena.offset + sz < USIZE →
      SchedInv (s.request_load lid sz).2) ∧
    (∀ s : Scheduler, SchedInv s.unload_all) := by
  refine ⟨?_, ?_, ?_⟩
  · intro m s h
    unfold Scheduler.boot at h
    split at h
    · injection h with h
      subst h
      intro hne
      exact absurd rfl hne
    · exact absurd h (by simp)
  · intro s lid sz hinv hpos hnw
    by_cases hc : (s.arena.offset + sz) % USIZE > s.arena.capacity
    · cases hll : s.loaded_layers with
      | nil =>
        simp [Scheduler.request_load, ModelArena.alloc, hc, hll]
        intro hne
        exact absurd rfl hne
      | cons o t =>
        simp [Scheduler.request_load, ModelArena.alloc, hc, hll]
        intro _
        have := hinv (by rw [hll]; simp)
        simpa [Scheduler.memory_usage, ModelArena.used_bytes] using this
    · simp [Scheduler.request_load, ModelArena.alloc, hc]
      intro _
      simp [Scheduler.memory_usage, ModelArena.used_bytes,
        Nat.mod_eq_of_lt hnw]
      omega
  · intro s
    intro hne
    exact absurd rfl hne

theorem sched_inv_preserved_witness :
    SchedInv ⟨⟨1048576, 0⟩, []⟩ ∧
    SchedInv (Scheduler.request_load ⟨⟨10, 5⟩, [97]⟩ 1 3).2 ∧
    SchedInv (Scheduler.unload_all ⟨⟨10, 5⟩, [97]⟩) :=
  ⟨sched_inv_preserved.1 1 ⟨⟨1048576, 0⟩, []⟩ rfl,
   sched_inv_preserved.2.1 ⟨⟨10, 5⟩, [97]⟩ 1 3
     (fun _ => by decide) (by decide) (by decide),
   sched_inv_preserved.2.2 ⟨⟨10, 5⟩, [97]⟩⟩

/-- Helper for C6: in every reachable scheduler state, an empty resident
record implies a zero arena offset (the record only becomes non-empty by
a successful load, and the two are only cleared together). -/
theorem reached_empty_offset (s : Scheduler) (h : Reached s) :
    s.loaded_layers = [] → s.arena.offset = 0 := by
  induction h with
  | boot m s1 hb =>
    intro _
    unfold Scheduler.boot at hb
    split at hb
    · next a heq =>
      injection hb with hb
      subst hb
      unfold ModelArena.new at heq
      by_cases hb2 : layoutFromSizeAlign32Ok (m * 1024 * 1024 % USIZE) = true
      · simp [hb2] at heq
        subst heq
        rfl
      · simp [hb2] at heq
    · exact absurd hb (by simp)
  | load s1 lid sz hr ih =>
    intro hempty
    by_cases hc : (s1.arena.offset + sz) % USIZE > s1.arena.capacity
    · cases hll : s1.loaded_layers with
      | nil =>
        simp [Scheduler.request_load, ModelArena.alloc, hc, hll]
        exact ih hll
      | cons o t =>
        simp [Scheduler.request_load, ModelArena.alloc, hc, hll] at hempty
    · simp [Scheduler.request_load, ModelArena.alloc, hc] at hempty
  | flush s1 hr ih =>
    intro _
    rfl

/-- C6: in every state reachable from `boot` by `request_load` and
`unload_all`, if `request_load(layer_id, size_bytes)` returns `OOM` then
`size_bytes` exceeds the arena's total capacity; hence no scheduler state
with the same capacity can serve the request with `LoadSuccess` on any
defined execution (one whose guard addition `offset + size_bytes` does
not overflow `usize` — an overflowing one zero-fills out of bounds and
returns no state), and in particular the same request still returns `OOM`
right after `unload_all`: `OOM` is terminal for that request at the
current capacity. -/
theorem request_load_oom_terminal (s : Scheduler) (h : Reached s)
    (lid sz : Nat) (hoom : (s.request_load lid sz).1 = .OOM) :
    s.arena.capacity < sz ∧
    (∀ s2 : Scheduler, s2.arena.capacity = s.arena.capacity →
      s2.arena.offset + sz < USIZE →
      ∀ p, (s2.request_load lid sz).1 ≠ .LoadSuccess p) ∧
    ((s.unload_all).request_load lid sz).1 = .OOM := by
  have hparts : s.loaded_layers = [] ∧
      s.arena.capacity < (s.arena.offset + sz) % USIZE := by
    by_cases hc : (s.arena.offset + sz) % USIZE > s.arena.capacity
    · cases hll : s.loaded_layers with
      | nil => exact ⟨rfl, hc⟩
      | cons o t =>
        simp [Scheduler.request_load, ModelArena.alloc, hc, hll] at hoom
    · simp [Scheduler.request_load, ModelArena.alloc, hc] at hoom
  obtain ⟨hempty, hover⟩ := hparts
  have hoff : s.arena.offset = 0 := reached_empty_offset s h hempty
  rw [hoff, Nat.zero_add] at hover
  have hcap : s.arena.capacity < sz :=
    lt_of_lt_of_le hover (Nat.mod_le sz USIZE)
  refine ⟨hcap, ?_, ?_⟩
  · intro s2 hc2 hnw2 p
    have hc3 : (s2.arena.offset + sz) % USIZE > s2.arena.capacity := by
      rw [Nat.mod_eq_of_lt hnw2]
      omega
    cases hll : s2.loaded_layers with
    | nil => simp [Scheduler.request_load, ModelArena.alloc, hc3, hll]
    | cons o t => simp [Scheduler.request_load, ModelArena.alloc, hc3, hll]
  · simp [Scheduler.unload_all, ModelArena.reset, Scheduler.request_load,
      ModelArena.alloc, hover]

theorem request_load_oom_terminal_witness :
    (Scheduler.mk ⟨1048576, 0⟩ []).arena.capacity < 2097152 ∧
    (Scheduler.request_load ⟨⟨1048576, 524288⟩, [4]⟩ 1 2097152).1 ≠
      .LoadSuccess 0 ∧
    ((Scheduler.unload_all ⟨⟨1048576, 0⟩, []⟩).request_load 1 2097152).1 =
      .OOM :=
  have T := request_load_oom_terminal ⟨⟨1048576, 0⟩, []⟩
    (Reached.boot 1 _ rfl) 1 2097152 rfl
  ⟨T.1, T.2.1 ⟨⟨1048576, 524288⟩, [4]⟩ rfl (by decide) 0, T.2.2⟩

/-- C10 counterexample: it is not the case that every `capacity_mb` whose
byte product fits in `usize` yields an arena of that capacity. At
`capacity_mb = 2^43` the product is `2^63 < 2^64`, yet
`Layout::from_size_align(2^63, 32)` fails its size check (the size rounded
up to the alignment overflows `isize`), so `ModelArena::new` — and hence
`boot` — fails with `AllocationFailed`. -/
theorem capacity_wrap_counterexample :
    (8796093022208 : Nat) * 1024 * 1024 < 2 ^ 64 ∧
    ModelArena.new 8796093022208 = .error .AllocationFailed ∧
    Scheduler.boot 8796093022208 = .error .AllocationFailed :=
  ⟨by decide, rfl, rfl⟩

/-- C10 (amended): `new` and `boot` compute the byte capacity as
`capacity_mb * 1024 * 1024` in fixed-width wrapping arithmetic (modulo
`2^64`) with no overflow check on the multiplication. Construction
succeeds — with the wrapped product as the exact capacity, a wrapped
(overflowed) product not being detected as an error — iff that wrapped
value passes the layout size check (at most `isize::MAX - 31`), and fails
with `AllocationFailed` otherwise. -/
theorem capacity_wrap_modulo (m : Nat) :
    (m * 1024 * 1024 % USIZE ≤ isizeMax - 31 →
      ModelArena.new m = .ok ⟨m * 1024 * 1024 % USIZE, 0⟩ ∧
      Scheduler.boot m = .ok ⟨⟨m * 1024 * 1024 % USIZE, 0⟩, []⟩) ∧
    (isizeMax - 31 < m * 1024 * 1024 % USIZE →
      ModelArena.new m = .error .AllocationFailed ∧
      Scheduler.boot m = .error .AllocationFailed) := by
  constructor
  · intro hle
    have hb : layoutFromSizeAlign32Ok (m * 1024 * 1024 % USIZE) = true := by
      simp [layoutFromSizeAlign32Ok, hle]
    constructor
    · unfold ModelArena.new
      simp [hb]
    · unfold Scheduler.boot ModelArena.new
      simp [hb]
  · intro hgt
    have hb : layoutFromSizeAlign32Ok (m * 1024 * 1024 % USIZE) = false := by
      simp [layoutFromSizeAlign32Ok]
      omega
    constructor
    · unfold ModelArena.new
      simp [hb]
    · unfold Scheduler.boot ModelArena.new
      simp [hb]

theorem capacity_wrap_modulo_witness :
    ModelArena.new 17592186044416 = .ok ⟨0, 0⟩ ∧
    Scheduler.boot 17592186044416 = .ok ⟨⟨0, 0⟩, []⟩ ∧
    ModelArena.new 26388279066624 = .error .AllocationFailed :=
  have h1 := (capacity_wrap_modulo 17592186044416).1 (by decide)
  have h2 := (capacity_wrap_modulo 26388279066624).2 (by decide)
  ⟨h1.1, h1.2, h2.1⟩
